import Mathlib

/-!
Verification of the incremental force-simulation and filtering engine of the
AskRiskRepeat repository (React + d3 knowledge-graph app).

The definitions below are a shallow embedding of the TypeScript source:
* `src/GraphCanvas` (the file `src/unnamed/part_000` and the second variant
  embedded in `src/types/index.ts`): the canvas-level merge of an incoming
  `GraphState` into the mutable node/link refs, the filtering effect, the
  drag handlers, and the d3 force configuration;
* `src/App.tsx`: the application-level graph-state updates
  (`handleInitialQuery`, `expandNode`, `handleNodeClick`).

JS numbers are modelled as `ℚ` (the claims under study only ever need exact
preservation / comparison of coordinates and opacities, never float rounding).
`Math.random()` jitter is modelled by an explicit parameter `rnd : ℕ → ℚ × ℚ`
supplying one fresh sample pair per freshly created node, and `undefined`
booleans (`visited?`) are modelled as `false`, which is how the source
consumes them (`d.visited ? … : …`).
-/

/-- `NodeType` enum from `src/types/index.ts` lines 4-13. -/
inductive NodeType where
  | CORE
  | ANALOGY
  | EXPERIMENT
  | HISTORY
  | APPLICATION
  | DEBATE
  | MISCONCEPTION
  | EXAMPLE
deriving DecidableEq, Repr

/-- `MicroQuest` from `src/types/index.ts` lines 15-18. -/
structure MicroQuest where
  title : String
  description : String
deriving DecidableEq, Repr

/-- `NodeData` from `src/types/index.ts` lines 20-29, together with the
`SimulationNodeDatum` layout fields (`x`, `y`, velocity `vx`, `vy`, and the
optional pin `fx`, `fy`) that d3 attaches to each node.  `isFavorite` is
never read by the engine and is omitted. -/
structure NodeData where
  id : String
  label : String
  type : NodeType
  explanation : String
  analogy : String
  microQuest : MicroQuest
  visited : Bool
  x : ℚ
  y : ℚ
  vx : ℚ
  vy : ℚ
  fx : Option ℚ
  fy : Option ℚ
deriving DecidableEq, Repr

/-- `LinkData` from `src/types/index.ts` lines 31-35.  At the application
level both endpoints are id strings; the canvas key extraction
(`typeof l.source === 'object' ? l.source.id : l.source`) is the identity
under this representation, so links are uniformly represented by their
endpoint ids. -/
structure LinkData where
  source : String
  target : String
  relation : String
deriving DecidableEq, Repr

/-- `GraphState` from `src/types/index.ts` lines 37-40. -/
structure GraphState where
  nodes : List NodeData
  links : List LinkData
deriving DecidableEq, Repr

/-- JS `new Map(list.map(n => [n.id, n])).get(i)`: for duplicate keys the
last entry wins, hence lookup scans the reversed list. -/
def lookupNode (old : List NodeData) (i : String) : Option NodeData :=
  old.reverse.find? (fun n => n.id == i)

/-- Link identity key from `part_000` lines 141 and 154:
`sourceId + "-" + targetId`. -/
def linkKey (s t : String) : String := s ++ "-" ++ t

/-- The key of a link value. -/
def keyOfLink (l : LinkData) : String := linkKey l.source l.target

/-- JS `new Map(list.map(l => [key(l), l])).get(k)` (last entry wins). -/
def lookupLink (old : List LinkData) (k : String) : Option LinkData :=
  old.reverse.find? (fun l => keyOfLink l == k)

/-- One step of the canvas node merge, `part_000` lines 143-149: an id match
in the old map is reused with `Object.assign(existing, { visited: n.visited })`
(only `visited` is copied onto it); otherwise a fresh copy of `n` is created
at the jittered viewport centre
`{ ...n, x: width/2 + (Math.random()-0.5)*50, y: height/2 + (Math.random()-0.5)*50 }`,
where the two `Math.random()` draws of the `i`-th fresh node are supplied by
`rnd i` (already scaled and shifted, i.e. `rnd i = ((r1-1/2)*50, (r2-1/2)*50)`). -/
def mergeOneNode (old : List NodeData) (cx cy : ℚ) (rnd : ℕ → ℚ × ℚ)
    (i : ℕ) (n : NodeData) : NodeData :=
  match lookupNode old n.id with
  | some existing => { existing with visited := n.visited }
  | none => { n with x := cx + (rnd i).1, y := cy + (rnd i).2 }

/-- `data.nodes.map(...)` of `part_000` lines 143-149, with the position in
the list threaded through so that each fresh node consumes its own random
sample. -/
def mergeNodesCanvasAux (old : List NodeData) (cx cy : ℚ) (rnd : ℕ → ℚ × ℚ) :
    ℕ → List NodeData → List NodeData
  | _, [] => []
  | i, n :: rest =>
      mergeOneNode old cx cy rnd i n ::
        mergeNodesCanvasAux old cx cy rnd (i + 1) rest

/-- The canvas node merge (`newNodes`, `part_000` lines 143-149): `old` is
`nodesRef.current`, `incoming` is `data.nodes`, `(cx, cy)` is
`(width/2, height/2)`. -/
def mergeNodesCanvas (old incoming : List NodeData) (cx cy : ℚ)
    (rnd : ℕ → ℚ × ℚ) : List NodeData :=
  mergeNodesCanvasAux old cx cy rnd 0 incoming

/-- The canvas link merge (`newLinks`, `part_000` lines 151-157): each
incoming link is replaced by the old link object stored under the same key
when one exists, otherwise kept as a fresh copy `{ ...l }`.  No link is ever
dropped here. -/
def mergeLinksCanvas (old incoming : List LinkData) : List LinkData :=
  incoming.map (fun l =>
    match lookupLink old (linkKey l.source l.target) with
    | some existing => existing
    | none => l)

/-- The `setGraphData` update of `handleInitialQuery`, `src/App.tsx`
lines 211-224: incoming nodes whose id already exists are dropped, and
incoming links whose `source-target` key already exists are dropped; the
survivors are appended.  No endpoint-resolution check is performed here. -/
def mergeInitial (prev frag : GraphState) : GraphState :=
  let existingIds := prev.nodes.map NodeData.id
  let filteredNewNodes :=
    frag.nodes.filter (fun n => !(existingIds.contains n.id))
  let existingLinks := prev.links.map keyOfLink
  let filteredNewLinks :=
    frag.links.filter (fun l => !(existingLinks.contains (keyOfLink l)))
  { nodes := prev.nodes ++ filteredNewNodes,
    links := prev.links ++ filteredNewLinks }

/-- The `setGraphData` update of `expandNode`, `src/App.tsx` lines 271-284:
incoming nodes with an existing id are dropped, and an incoming link is kept
(`validLinks`) only when each endpoint id is either an existing id or the id
of one of the surviving new nodes. -/
def mergeExpand (prev frag : GraphState) : GraphState :=
  let existingIds := prev.nodes.map NodeData.id
  let newNodes := frag.nodes.filter (fun n => !(existingIds.contains n.id))
  let validLinks := frag.links.filter (fun l =>
    (existingIds.contains l.source || newNodes.any (fun n => n.id == l.source)) &&
    (existingIds.contains l.target || newNodes.any (fun n => n.id == l.target)))
  { nodes := prev.nodes ++ newNodes, links := prev.links ++ validLinks }

/-- The visited-marking `setGraphData` update shared by `handleNodeClick`
(`src/App.tsx` lines 293-301) and the start of `expandNode` (lines 236-239):
`nodes.map(n => n.id === node.id ? { ...n, visited: true } : n)`. -/
def setVisited (prev : GraphState) (i : String) : GraphState :=
  { prev with
    nodes := prev.nodes.map (fun n =>
      if n.id == i then { n with visited := true } else n) }

/-- The root id generated on a first query, `src/App.tsx` line 189:
`'root-' + Date.now()`. -/
def rootIdOf (timestamp : ℕ) : String := "root-" ++ toString timestamp

/-- The application-level operations that ever update `graphData`. -/
inductive AppOp where
  | click (i : String)
  | mergeI (frag : GraphState)
  | mergeE (frag : GraphState)

/-- Apply one application-level update to the graph state. -/
def applyOp : AppOp → GraphState → GraphState
  | .click i, s => setVisited s i
  | .mergeI f, s => mergeInitial s f
  | .mergeE f, s => mergeExpand s f

/-- Apply a sequence of application-level updates, oldest first. -/
def applyOps (ops : List AppOp) (s : GraphState) : GraphState :=
  ops.foldl (fun s op => applyOp op s) s

/-- Both endpoints of `l` resolve to a node of `nodes`. -/
def resolves (nodes : List NodeData) (l : LinkData) : Bool :=
  nodes.any (fun n => n.id == l.source) && nodes.any (fun n => n.id == l.target)

/-- The ordered endpoint pair of a link (the claims' notion of link
identity, the relation label excluded). -/
def pairOf (l : LinkData) : String × String := (l.source, l.target)

/-! ## Filter / visibility resolver (`part_000` lines 341-378) -/

/-- `isFiltering` of `part_000` lines 345-347:
`activeTypes.length > 0 || filterUnvisited`. -/
def isFiltering (activeTypes : List NodeType) (filterUnvisited : Bool) : Bool :=
  !activeTypes.isEmpty || filterUnvisited

/-- The node predicate recomputed in each styling callback of `part_000`
lines 351-361: `typeMatch && visitedMatch` with
`typeMatch = !isTypeFiltering || activeTypes.includes(d.type)` and
`visitedMatch = !isVisitedFiltering || !d.visited`. -/
def nodeActive (activeTypes : List NodeType) (filterUnvisited : Bool)
    (d : NodeData) : Bool :=
  (activeTypes.isEmpty || activeTypes.contains d.type) &&
  (!filterUnvisited || !d.visited)

/-- Node opacity from the filtering effect, `part_000` lines 349-356. -/
def nodeOpacity (activeTypes : List NodeType) (filterUnvisited : Bool)
    (d : NodeData) : ℚ :=
  if !isFiltering activeTypes filterUnvisited then 1
  else if nodeActive activeTypes filterUnvisited d then 1 else 1 / 10

/-- Node `pointer-events` style from the filtering effect, `part_000`
lines 357-362. -/
def nodePointerEvents (activeTypes : List NodeType) (filterUnvisited : Bool)
    (d : NodeData) : String :=
  if !isFiltering activeTypes filterUnvisited then "all"
  else if nodeActive activeTypes filterUnvisited d then "all" else "none"

/-- Link opacity from the filtering effect, `part_000` lines 364-376: `s`
and `t` are the (already resolved) endpoint nodes of the link. -/
def linkOpacity (activeTypes : List NodeType) (filterUnvisited : Bool)
    (s t : NodeData) : ℚ :=
  if !isFiltering activeTypes filterUnvisited then 6 / 10
  else if !nodeActive activeTypes filterUnvisited s ||
          !nodeActive activeTypes filterUnvisited t then 1 / 10
  else 6 / 10

/-! ## Interaction controller (`part_000` lines 321-336) and solver tick -/

/-- The solver scalars touched by the drag handlers. -/
structure SimState where
  alpha : ℚ
  alphaTarget : ℚ
deriving DecidableEq, Repr

/-- `dragstarted` (`part_000` lines 321-325): when no other drag gesture is
active (`!event.active`) the alpha target is raised to `0.3` (and the
stepper restarted); the node is pinned at its current position. -/
def dragstarted (eventActive : Bool) (sim : SimState) (d : NodeData) :
    SimState × NodeData :=
  ((if !eventActive then { sim with alphaTarget := 3 / 10 } else sim),
   { d with fx := some d.x, fy := some d.y })

/-- `dragged` (`part_000` lines 327-330): the pin follows the pointer. -/
def dragged (px py : ℚ) (d : NodeData) : NodeData :=
  { d with fx := some px, fy := some py }

/-- `dragended` (`part_000` lines 332-336): when this was the last active
gesture the alpha target is restored to `0`; the pin is cleared. -/
def dragended (eventActive : Bool) (sim : SimState) (d : NodeData) :
    SimState × NodeData :=
  ((if !eventActive then { sim with alphaTarget := 0 } else sim),
   { d with fx := none, fy := none })

/-- Modelled from the spec: the per-tick position update of the force solver
is d3's `simulation.tick` (library code, not under `src/`).  Following §4.2,
the forces' net per-tick velocity contribution on a node is abstracted as a
parameter `f`; a free axis integrates it into the velocity and position,
while a pinned axis has its coordinate overwritten by the pin and its
velocity zeroed ("a node with an active pin has its position each tick
overwritten by the pin coordinates …; velocity is not applied to pinned
nodes"). -/
def tickNode (f : NodeData → ℚ × ℚ) (d : NodeData) : NodeData :=
  let vx := match d.fx with
    | some _ => 0
    | none => d.vx + (f d).1
  let vy := match d.fy with
    | some _ => 0
    | none => d.vy + (f d).2
  { d with
    vx := vx
    vy := vy
    x := match d.fx with
      | some px => px
      | none => d.x + vx
    y := match d.fy with
      | some py => py
      | none => d.y + vy }

/-- Iterate the solver tick `n` times on one node. -/
def tickIter (f : NodeData → ℚ × ℚ) : ℕ → NodeData → NodeData
  | 0, d => d
  | n + 1, d => tickIter f n (tickNode f d)

/-! ## Force configuration constants -/

/-- Collision radius of the `part_000` force configuration (line 45):
`d3.forceCollide().radius(45)` — a constant, which d3 lifts to the per-node
radius accessor; it does not read the node. -/
def collideRadius (_d : NodeData) : ℚ := 45

/-- Collision iteration count of the `part_000` force configuration
(line 45): `.iterations(2)`. -/
def collideIterations : ℕ := 2

/-- Collision radius in the second `GraphCanvas` variant
(`src/types/index.ts` line 92): `d3.forceCollide().radius(50)` — again a
constant accessor. -/
def collideRadiusAlt (_d : NodeData) : ℚ := 50

/-- Collision iteration count in the second `GraphCanvas` variant
(`src/types/index.ts` line 92): `.iterations(2)`. -/
def collideIterationsAlt : ℕ := 2

/-! ## Concrete sample data for witnesses and counterexamples -/

/-- A concrete node with the given id and type, all payload text equal to
the id, unvisited, at the origin, unpinned. -/
def mkNode (i : String) (t : NodeType) : NodeData :=
  { id := i, label := i, type := t, explanation := i, analogy := i,
    microQuest := { title := i, description := i }, visited := false,
    x := 0, y := 0, vx := 0, vy := 0, fx := none, fy := none }

/-! ## Helper lemmas -/

lemma mergeNodesCanvasAux_length (old : List NodeData) (cx cy : ℚ)
    (rnd : ℕ → ℚ × ℚ) :
    ∀ (inc : List NodeData) (k : ℕ),
      (mergeNodesCanvasAux old cx cy rnd k inc).length = inc.length := by
  intro inc
  induction inc with
  | nil => intro k; rfl
  | cons n rest ih => intro k; simpa [mergeNodesCanvasAux] using ih (k + 1)

lemma mergeNodesCanvasAux_get (old : List NodeData) (cx cy : ℚ)
    (rnd : ℕ → ℚ × ℚ) :
    ∀ (inc : List NodeData) (k j : ℕ) (h : j < inc.length)
      (h2 : j < (mergeNodesCanvasAux old cx cy rnd k inc).length),
      (mergeNodesCanvasAux old cx cy rnd k inc).get ⟨j, h2⟩ =
        mergeOneNode old cx cy rnd (k + j) (inc.get ⟨j, h⟩) := by
  intro inc
  induction inc with
  | nil => intro k j h h2; exact absurd h (by simp)
  | cons n rest ih =>
      intro k j h h2
      cases j with
      | zero => simp [mergeNodesCanvasAux]
      | succ j =>
          have h' : j < rest.length := by simpa using h
          have h2' : j < (mergeNodesCanvasAux old cx cy rnd (k + 1) rest).length := by
            rw [mergeNodesCanvasAux_length]
            exact h'
          have e1 : (mergeNodesCanvasAux old cx cy rnd k (n :: rest)).get ⟨j + 1, h2⟩ =
              (mergeNodesCanvasAux old cx cy rnd (k + 1) rest).get ⟨j, h2'⟩ := by
            simp [mergeNodesCanvasAux, List.get_eq_getElem]
          rw [e1, ih (k + 1) j h' h2']
          have e2 : k + 1 + j = k + (j + 1) := by omega
          rw [e2]
          congr 1

lemma mergeNodesCanvas_length (old inc : List NodeData) (cx cy : ℚ)
    (rnd : ℕ → ℚ × ℚ) :
    (mergeNodesCanvas old inc cx cy rnd).length = inc.length :=
  mergeNodesCanvasAux_length old cx cy rnd inc 0

lemma mergeNodesCanvas_get (old inc : List NodeData) (cx cy : ℚ)
    (rnd : ℕ → ℚ × ℚ) (j : ℕ) (h : j < inc.length)
    (h2 : j < (mergeNodesCanvas old inc cx cy rnd).length) :
    (mergeNodesCanvas old inc cx cy rnd).get ⟨j, h2⟩ =
      mergeOneNode old cx cy rnd j (inc.get ⟨j, h⟩) := by
  simpa using mergeNodesCanvasAux_get old cx cy rnd inc 0 j h h2

lemma mergeOneNode_of_lookup (old : List NodeData) (cx cy : ℚ)
    (rnd : ℕ → ℚ × ℚ) (i : ℕ) (n ex : NodeData)
    (h : lookupNode old n.id = some ex) :
    mergeOneNode old cx cy rnd i n = { ex with visited := n.visited } := by
  unfold mergeOneNode
  rw [h]

lemma applyOp_nodes_get (op : AppOp) (s : GraphState) (j : ℕ)
    (h : j < s.nodes.length) :
    ∃ h2 : j < (applyOp op s).nodes.length,
      ((applyOp op s).nodes.get ⟨j, h2⟩).id = (s.nodes.get ⟨j, h⟩).id ∧
      ((s.nodes.get ⟨j, h⟩).visited = true →
        ((applyOp op s).nodes.get ⟨j, h2⟩).visited = true) := by
  cases op with
  | click i =>
      have h2 : j < (applyOp (AppOp.click i) s).nodes.length := by
        simpa [applyOp, setVisited] using h
      have e : ((applyOp (AppOp.click i) s).nodes).get ⟨j, h2⟩ =
          (fun n => if n.id == i then { n with visited := true } else n)
            (s.nodes.get ⟨j, h⟩) := by
        simp [applyOp, setVisited, List.get_eq_getElem]
      refine ⟨h2, ?_, ?_⟩
      · rw [e]
        simp only []
        split <;> rfl
      · intro hv
        rw [e]
        simp only []
        split
        · rfl
        · simpa [List.get_eq_getElem] using hv
  | mergeI f =>
      have h2 : j < (applyOp (AppOp.mergeI f) s).nodes.length := by
        simp only [applyOp, mergeInitial, List.length_append]
        omega
      have e : ((applyOp (AppOp.mergeI f) s).nodes).get ⟨j, h2⟩ =
          s.nodes.get ⟨j, h⟩ := by
        simp [applyOp, mergeInitial, List.get_eq_getElem,
          List.getElem_append_left h]
      exact ⟨h2, by rw [e], fun hv => by rw [e]; exact hv⟩
  | mergeE f =>
      have h2 : j < (applyOp (AppOp.mergeE f) s).nodes.length := by
        simp only [applyOp, mergeExpand, List.length_append]
        omega
      have e : ((applyOp (AppOp.mergeE f) s).nodes).get ⟨j, h2⟩ =
          s.nodes.get ⟨j, h⟩ := by
        simp [applyOp, mergeExpand, List.get_eq_getElem,
          List.getElem_append_left h]
      exact ⟨h2, by rw [e], fun hv => by rw [e]; exact hv⟩

lemma contains_iff_mem (l : List String) (a : String) :
    l.contains a = true ↔ a ∈ l := by
  simp [List.contains, List.elem_iff]

lemma mergeInitial_nodes_eq (s f : GraphState) :
    (mergeInitial s f).nodes =
      s.nodes ++ f.nodes.filter
        (fun n => !((s.nodes.map NodeData.id).contains n.id)) := rfl

lemma mergeInitial_links_eq (s f : GraphState) :
    (mergeInitial s f).links =
      s.links ++ f.links.filter
        (fun l => !((s.links.map keyOfLink).contains (keyOfLink l))) := rfl

lemma mergeInitial_idem (s f : GraphState) :
    mergeInitial (mergeInitial s f) f = mergeInitial s f := by
  have hn : ∀ n ∈ f.nodes, n.id ∈ (mergeInitial s f).nodes.map NodeData.id := by
    intro n hmem
    rw [mergeInitial_nodes_eq, List.map_append, List.mem_append]
    by_cases hc : n.id ∈ s.nodes.map NodeData.id
    · exact Or.inl hc
    · refine Or.inr (List.mem_map.2 ⟨n, List.mem_filter.2 ⟨hmem, ?_⟩, rfl⟩)
      simp [contains_iff_mem, hc]
  have hl : ∀ l ∈ f.links,
      keyOfLink l ∈ (mergeInitial s f).links.map keyOfLink := by
    intro l hmem
    rw [mergeInitial_links_eq, List.map_append, List.mem_append]
    by_cases hc : keyOfLink l ∈ s.links.map keyOfLink
    · exact Or.inl hc
    · refine Or.inr (List.mem_map.2 ⟨l, List.mem_filter.2 ⟨hmem, ?_⟩, rfl⟩)
      simp [contains_iff_mem, hc]
  have e1 : f.nodes.filter
      (fun n => !(((mergeInitial s f).nodes.map NodeData.id).contains n.id)) =
        [] := by
    rw [List.filter_eq_nil_iff]
    intro n hmem
    have hc := (contains_iff_mem _ _).2 (hn n hmem)
    rw [hc]
    decide
  have e2 : f.links.filter
      (fun l =>
        !(((mergeInitial s f).links.map keyOfLink).contains (keyOfLink l))) =
        [] := by
    rw [List.filter_eq_nil_iff]
    intro l hmem
    have hc := (contains_iff_mem _ _).2 (hl l hmem)
    rw [hc]
    decide
  have key : mergeInitial (mergeInitial s f) f =
      { nodes := (mergeInitial s f).nodes ++ f.nodes.filter
          (fun n => !(((mergeInitial s f).nodes.map NodeData.id).contains n.id)),
        links := (mergeInitial s f).links ++ f.links.filter
          (fun l =>
            !(((mergeInitial s f).links.map keyOfLink).contains
                (keyOfLink l))) } := rfl
  rw [key, e1, e2]
  simp

lemma nodup_ids_mergeInitial (s f : GraphState)
    (hs : (s.nodes.map NodeData.id).Nodup)
    (hf : (f.nodes.map NodeData.id).Nodup) :
    ((mergeInitial s f).nodes.map NodeData.id).Nodup := by
  rw [mergeInitial_nodes_eq, List.map_append, List.nodup_append]
  refine ⟨hs, hf.sublist (List.Sublist.map _ (List.filter_sublist _)), ?_⟩
  intro a ha hb
  obtain ⟨n, hn, rfl⟩ := List.mem_map.1 hb
  have hp := (List.mem_filter.1 hn).2
  rw [(contains_iff_mem _ _).2 ha] at hp
  exact absurd hp (by decide)

lemma keyOfLink_eq_of_pairOf_eq (l1 l2 : LinkData)
    (h : pairOf l1 = pairOf l2) : keyOfLink l1 = keyOfLink l2 := by
  have h1 : l1.source = l2.source := congrArg Prod.fst h
  have h2 : l1.target = l2.target := congrArg Prod.snd h
  unfold keyOfLink linkKey
  rw [h1, h2]

lemma nodup_pairs_mergeInitial (s f : GraphState)
    (hs : (s.links.map pairOf).Nodup)
    (hf : (f.links.map pairOf).Nodup) :
    ((mergeInitial s f).links.map pairOf).Nodup := by
  rw [mergeInitial_links_eq, List.map_append, List.nodup_append]
  refine ⟨hs, hf.sublist (List.Sublist.map _ (List.filter_sublist _)), ?_⟩
  intro a ha hb
  obtain ⟨l2, hl2, rfl⟩ := List.mem_map.1 hb
  obtain ⟨l1, hl1, hpair⟩ := List.mem_map.1 ha
  have hkey : keyOfLink l1 = keyOfLink l2 :=
    keyOfLink_eq_of_pairOf_eq _ _ hpair
  have hp := (List.mem_filter.1 hl2).2
  rw [(contains_iff_mem _ _).2 (List.mem_map.2 ⟨l1, hl1, hkey⟩)] at hp
  exact absurd hp (by decide)

lemma any_id_of_mem_map (ns : List NodeData) (a : String)
    (h : a ∈ ns.map NodeData.id) : ns.any (fun n => n.id == a) = true := by
  obtain ⟨n, hn, rfl⟩ := List.mem_map.1 h
  simp [List.any_eq_true]
  exact ⟨n, hn, rfl⟩

lemma resolves_append_left (ns ms : List NodeData) (l : LinkData)
    (h : resolves ns l = true) : resolves (ns ++ ms) l = true := by
  unfold resolves at h ⊢
  rw [Bool.and_eq_true] at h
  obtain ⟨h1, h2⟩ := h
  rw [Bool.and_eq_true]
  constructor
  · rw [List.any_append, h1]
    simp
  · rw [List.any_append, h2]
    simp

lemma tickNode_pinned_fields (f : NodeData → ℚ × ℚ) (d : NodeData)
    (px py : ℚ) (hx : d.fx = some px) (hy : d.fy = some py) :
    (tickNode f d).fx = some px ∧ (tickNode f d).fy = some py ∧
    (tickNode f d).x = px ∧ (tickNode f d).y = py := by
  unfold tickNode
  rw [hx, hy]
  exact ⟨rfl, rfl, rfl, rfl⟩

lemma tickIter_pinned (f : NodeData → ℚ × ℚ) (px py : ℚ) :
    ∀ (n : ℕ) (d : NodeData), d.fx = some px → d.fy = some py →
      (tickIter f n d).fx = some px ∧ (tickIter f n d).fy = some py ∧
      (1 ≤ n → (tickIter f n d).x = px ∧ (tickIter f n d).y = py) := by
  intro n
  induction n with
  | zero =>
      intro d hx hy
      exact ⟨hx, hy, fun hn => absurd hn (by omega)⟩
  | succ n ih =>
      intro d hx hy
      obtain ⟨tfx, tfy, tx, ty⟩ := tickNode_pinned_fields f d px py hx hy
      obtain ⟨a, b, c⟩ := ih (tickNode f d) tfx tfy
      refine ⟨a, b, fun _ => ?_⟩
      cases n with
      | zero => exact ⟨tx, ty⟩
      | succ m => exact c (by omega)

lemma mergeExpand_links_resolve (prev frag : GraphState)
    (hprev : ∀ l ∈ prev.links, resolves prev.nodes l = true) :
    ∀ l ∈ (mergeExpand prev frag).links,
      resolves (mergeExpand prev frag).nodes l = true := by
  intro l hl
  have hnodes : (mergeExpand prev frag).nodes =
      prev.nodes ++ frag.nodes.filter
        (fun n => !((prev.nodes.map NodeData.id).contains n.id)) := rfl
  have hlinks : (mergeExpand prev frag).links =
      prev.links ++ frag.links.filter (fun l =>
        ((prev.nodes.map NodeData.id).contains l.source ||
          (frag.nodes.filter
            (fun n => !((prev.nodes.map NodeData.id).contains n.id))).any
              (fun n => n.id == l.source)) &&
        ((prev.nodes.map NodeData.id).contains l.target ||
          (frag.nodes.filter
            (fun n => !((prev.nodes.map NodeData.id).contains n.id))).any
              (fun n => n.id == l.target))) := rfl
  rw [hlinks] at hl
  rw [hnodes]
  rcases List.mem_append.1 hl with hmem | hmem
  · exact resolves_append_left _ _ _ (hprev l hmem)
  · have hc := (List.mem_filter.1 hmem).2
    simp only [Bool.and_eq_true, Bool.or_eq_true] at hc
    obtain ⟨hsrc, htgt⟩ := hc
    simp only [resolves, List.any_append, Bool.and_eq_true, Bool.or_eq_true]
    constructor
    · rcases hsrc with hs1 | hs1
      · exact Or.inl (any_id_of_mem_map _ _ ((contains_iff_mem _ _).1 hs1))
      · exact Or.inr hs1
    · rcases htgt with ht1 | ht1
      · exact Or.inl (any_id_of_mem_map _ _ ((contains_iff_mem _ _).1 ht1))
      · exact Or.inr ht1

lemma applyOps_nodes_get (ops : List AppOp) :
    ∀ (s : GraphState) (j : ℕ) (h : j < s.nodes.length),
      ∃ h2 : j < (applyOps ops s).nodes.length,
        ((applyOps ops s).nodes.get ⟨j, h2⟩).id = (s.nodes.get ⟨j, h⟩).id ∧
        ((s.nodes.get ⟨j, h⟩).visited = true →
          ((applyOps ops s).nodes.get ⟨j, h2⟩).visited = true) := by
  induction ops with
  | nil => intro s j h; exact ⟨h, rfl, fun hv => hv⟩
  | cons op rest ih =>
      intro s j h
      obtain ⟨h2, hid, hvis⟩ := applyOp_nodes_get op s j h
      obtain ⟨h3, hid2, hvis2⟩ := ih (applyOp op s) j h2
      exact ⟨h3, hid2.trans hid, fun hv => hvis2 (hvis hv)⟩

/-! ## Claims -/

/-- Claim C1: for an incoming node whose id matches a node of the engine's
working set, the canvas merge reuses the existing node's physical state —
its `x`, `y` and pin `fx`, `fy` are not reset — and a node present before
and after an application-level merge that does not mention it keeps a
bit-identical `(x, y)` through the subsequent canvas merge (both for the
`expandNode` and the `handleInitialQuery` merge). -/
theorem c1_position_preservation :
    (∀ (old inc : List NodeData) (cx cy : ℚ) (rnd : ℕ → ℚ × ℚ) (j : ℕ)
        (h : j < inc.length) (ex : NodeData),
        lookupNode old ((inc.get ⟨j, h⟩).id) = some ex →
        ∃ h2 : j < (mergeNodesCanvas old inc cx cy rnd).length,
          ((mergeNodesCanvas old inc cx cy rnd).get ⟨j, h2⟩).x = ex.x ∧
          ((mergeNodesCanvas old inc cx cy rnd).get ⟨j, h2⟩).y = ex.y ∧
          ((mergeNodesCanvas old inc cx cy rnd).get ⟨j, h2⟩).fx = ex.fx ∧
          ((mergeNodesCanvas old inc cx cy rnd).get ⟨j, h2⟩).fy = ex.fy) ∧
    (∀ (prev frag : GraphState) (old : List NodeData) (cx cy : ℚ)
        (rnd : ℕ → ℚ × ℚ) (j : ℕ) (h : j < prev.nodes.length) (ex : NodeData),
        (∀ m ∈ frag.nodes, m.id ≠ (prev.nodes.get ⟨j, h⟩).id) →
        lookupNode old ((prev.nodes.get ⟨j, h⟩).id) = some ex →
        (∃ h2 : j <
            (mergeNodesCanvas old (mergeExpand prev frag).nodes cx cy rnd).length,
          ((mergeNodesCanvas old (mergeExpand prev frag).nodes cx cy rnd).get
              ⟨j, h2⟩).x = ex.x ∧
          ((mergeNodesCanvas old (mergeExpand prev frag).nodes cx cy rnd).get
              ⟨j, h2⟩).y = ex.y) ∧
        (∃ h3 : j <
            (mergeNodesCanvas old (mergeInitial prev frag).nodes cx cy rnd).length,
          ((mergeNodesCanvas old (mergeInitial prev frag).nodes cx cy rnd).get
              ⟨j, h3⟩).x = ex.x ∧
          ((mergeNodesCanvas old (mergeInitial prev frag).nodes cx cy rnd).get
              ⟨j, h3⟩).y = ex.y)) := by
  constructor
  · intro old inc cx cy rnd j h ex hex
    have h2 : j < (mergeNodesCanvas old inc cx cy rnd).length := by
      rw [mergeNodesCanvas_length]
      exact h
    refine ⟨h2, ?_, ?_, ?_, ?_⟩ <;>
      rw [mergeNodesCanvas_get old inc cx cy rnd j h h2,
        mergeOneNode_of_lookup old cx cy rnd j (inc.get ⟨j, h⟩) ex hex]
  · intro prev frag old cx cy rnd j h ex hfrag hex
    constructor
    · have hlen : j < (mergeExpand prev frag).nodes.length := by
        have e : (mergeExpand prev frag).nodes.length =
            prev.nodes.length +
              (frag.nodes.filter
                (fun n => !((prev.nodes.map NodeData.id).contains n.id))).length := by
          simp [mergeExpand]
        omega
      have hget : (mergeExpand prev frag).nodes.get ⟨j, hlen⟩ =
          prev.nodes.get ⟨j, h⟩ := by
        simp [mergeExpand, List.get_eq_getElem, List.getElem_append_left h]
      have h2 : j <
          (mergeNodesCanvas old (mergeExpand prev frag).nodes cx cy rnd).length := by
        rw [mergeNodesCanvas_length]
        exact hlen
      refine ⟨h2, ?_, ?_⟩ <;>
        rw [mergeNodesCanvas_get old _ cx cy rnd j hlen h2, hget,
          mergeOneNode_of_lookup old cx cy rnd j (prev.nodes.get ⟨j, h⟩) ex hex]
    · have hlen : j < (mergeInitial prev frag).nodes.length := by
        have e : (mergeInitial prev frag).nodes.length =
            prev.nodes.length +
              (frag.nodes.filter
                (fun n => !((prev.nodes.map NodeData.id).contains n.id))).length := by
          simp [mergeInitial]
        omega
      have hget : (mergeInitial prev frag).nodes.get ⟨j, hlen⟩ =
          prev.nodes.get ⟨j, h⟩ := by
        simp [mergeInitial, List.get_eq_getElem, List.getElem_append_left h]
      have h3 : j <
          (mergeNodesCanvas old (mergeInitial prev frag).nodes cx cy rnd).length := by
        rw [mergeNodesCanvas_length]
        exact hlen
      refine ⟨h3, ?_, ?_⟩ <;>
        rw [mergeNodesCanvas_get old _ cx cy rnd j hlen h3, hget,
          mergeOneNode_of_lookup old cx cy rnd j (prev.nodes.get ⟨j, h⟩) ex hex]

/-- Claim C1 witness: a pinned, positioned node with id `a` in the working
set keeps `x = 7`, `y = 8`, `fx = some 7`, `fy = some 8` when a fragment
mentioning `a` is merged. -/
theorem c1_witness :
    (lookupNode [{ mkNode "a" NodeType.CORE with
        x := 7, y := 8, fx := some 7, fy := some 8 }]
      (([mkNode "a" NodeType.EXAMPLE].get ⟨0, by decide⟩).id) =
      some { mkNode "a" NodeType.CORE with
        x := 7, y := 8, fx := some 7, fy := some 8 }) ∧
    ∃ h2 : 0 < (mergeNodesCanvas
        [{ mkNode "a" NodeType.CORE with
            x := 7, y := 8, fx := some 7, fy := some 8 }]
        [mkNode "a" NodeType.EXAMPLE] 0 0 (fun _ => (0, 0))).length,
      ((mergeNodesCanvas
        [{ mkNode "a" NodeType.CORE with
            x := 7, y := 8, fx := some 7, fy := some 8 }]
        [mkNode "a" NodeType.EXAMPLE] 0 0 (fun _ => (0, 0))).get ⟨0, h2⟩).x =
        ({ mkNode "a" NodeType.CORE with
            x := 7, y := 8, fx := some 7, fy := some 8 } : NodeData).x ∧
      ((mergeNodesCanvas
        [{ mkNode "a" NodeType.CORE with
            x := 7, y := 8, fx := some 7, fy := some 8 }]
        [mkNode "a" NodeType.EXAMPLE] 0 0 (fun _ => (0, 0))).get ⟨0, h2⟩).y =
        ({ mkNode "a" NodeType.CORE with
            x := 7, y := 8, fx := some 7, fy := some 8 } : NodeData).y ∧
      ((mergeNodesCanvas
        [{ mkNode "a" NodeType.CORE with
            x := 7, y := 8, fx := some 7, fy := some 8 }]
        [mkNode "a" NodeType.EXAMPLE] 0 0 (fun _ => (0, 0))).get ⟨0, h2⟩).fx =
        ({ mkNode "a" NodeType.CORE with
            x := 7, y := 8, fx := some 7, fy := some 8 } : NodeData).fx ∧
      ((mergeNodesCanvas
        [{ mkNode "a" NodeType.CORE with
            x := 7, y := 8, fx := some 7, fy := some 8 }]
        [mkNode "a" NodeType.EXAMPLE] 0 0 (fun _ => (0, 0))).get ⟨0, h2⟩).fy =
        ({ mkNode "a" NodeType.CORE with
            x := 7, y := 8, fx := some 7, fy := some 8 } : NodeData).fy :=
  ⟨rfl, c1_position_preservation.1
    [{ mkNode "a" NodeType.CORE with
        x := 7, y := 8, fx := some 7, fy := some 8 }]
    [mkNode "a" NodeType.EXAMPLE] 0 0 (fun _ => (0, 0)) 0 (by decide)
    { mkNode "a" NodeType.CORE with
        x := 7, y := 8, fx := some 7, fy := some 8 } rfl⟩

/-- Claim C7 counterexample: the canvas merge does NOT refresh the textual
payload fields of an existing node.  `Object.assign(existing, { visited:
n.visited })` copies only `visited`; merging an incoming node with id `a`
whose `label`, `explanation` and `analogy` all read `NEW` leaves the
existing node's payload (`a`) unchanged, contradicting the claim that the
textual payload is overwritten from the incoming data. -/
theorem c7_payload_not_refreshed :
    ((mergeNodesCanvas [mkNode "a" NodeType.CORE]
        [{ mkNode "a" NodeType.CORE with
            label := "NEW", explanation := "NEW", analogy := "NEW",
            visited := true }]
        0 0 (fun _ => (0, 0))).map NodeData.label = ["a"]) ∧
    ((mergeNodesCanvas [mkNode "a" NodeType.CORE]
        [{ mkNode "a" NodeType.CORE with
            label := "NEW", explanation := "NEW", analogy := "NEW",
            visited := true }]
        0 0 (fun _ => (0, 0))).map NodeData.explanation = ["a"]) ∧
    ((mergeNodesCanvas [mkNode "a" NodeType.CORE]
        [{ mkNode "a" NodeType.CORE with
            label := "NEW", explanation := "NEW", analogy := "NEW",
            visited := true }]
        0 0 (fun _ => (0, 0))).map NodeData.analogy = ["a"]) ∧
    ((mergeNodesCanvas [mkNode "a" NodeType.CORE]
        [{ mkNode "a" NodeType.CORE with
            label := "NEW", explanation := "NEW", analogy := "NEW",
            visited := true }]
        0 0 (fun _ => (0, 0))).map NodeData.visited = [true]) ∧
    ("a" : String) ≠ "NEW" := by
  decide

/-- Claim C7 (amended): for an incoming node whose id matches an existing
node, the canvas merge overwrites only the `visited` flag onto the existing
node object; every other field — the textual payload `label`,
`explanation`, `analogy` included — keeps the existing node's value, which
the record-update equality below states exactly. -/
theorem c7_only_visited_refreshed :
    ∀ (old inc : List NodeData) (cx cy : ℚ) (rnd : ℕ → ℚ × ℚ) (j : ℕ)
      (h : j < inc.length) (ex : NodeData),
      lookupNode old ((inc.get ⟨j, h⟩).id) = some ex →
      ∃ h2 : j < (mergeNodesCanvas old inc cx cy rnd).length,
        (mergeNodesCanvas old inc cx cy rnd).get ⟨j, h2⟩ =
          { ex with visited := (inc.get ⟨j, h⟩).visited } := by
  intro old inc cx cy rnd j h ex hex
  have h2 : j < (mergeNodesCanvas old inc cx cy rnd).length := by
    rw [mergeNodesCanvas_length]
    exact h
  refine ⟨h2, ?_⟩
  rw [mergeNodesCanvas_get old inc cx cy rnd j h h2,
    mergeOneNode_of_lookup old cx cy rnd j (inc.get ⟨j, h⟩) ex hex]

/-- Claim C7 witness: merging an incoming visited node with id `b` onto an
existing node of the same id yields exactly the existing node with
`visited := true`. -/
theorem c7_witness :
    (lookupNode [mkNode "b" NodeType.HISTORY]
      (([{ mkNode "b" NodeType.DEBATE with visited := true }].get
          ⟨0, by decide⟩).id) = some (mkNode "b" NodeType.HISTORY)) ∧
    ∃ h2 : 0 < (mergeNodesCanvas [mkNode "b" NodeType.HISTORY]
        [{ mkNode "b" NodeType.DEBATE with visited := true }]
        0 0 (fun _ => (0, 0))).length,
      (mergeNodesCanvas [mkNode "b" NodeType.HISTORY]
        [{ mkNode "b" NodeType.DEBATE with visited := true }]
        0 0 (fun _ => (0, 0))).get ⟨0, h2⟩ =
        { mkNode "b" NodeType.HISTORY with
            visited := ([{ mkNode "b" NodeType.DEBATE with visited := true }].get
              ⟨0, by decide⟩).visited } :=
  ⟨rfl, c7_only_visited_refreshed [mkNode "b" NodeType.HISTORY]
    [{ mkNode "b" NodeType.DEBATE with visited := true }]
    0 0 (fun _ => (0, 0)) 0 (by decide) (mkNode "b" NodeType.HISTORY) rfl⟩

/-- Claim C9 counterexample: the collision radius is the constant `45` for
every node — a CORE (root) node gets the same footprint as an ANALOGY node,
not a larger one, contradicting the claimed category-dependent radius. -/
theorem c9_constant_radius_refutes_category :
    collideRadius (mkNode "root" NodeType.CORE) =
      collideRadius (mkNode "a" NodeType.ANALOGY) ∧
    ¬ collideRadius (mkNode "a" NodeType.ANALOGY) <
        collideRadius (mkNode "root" NodeType.CORE) := by
  refine ⟨rfl, ?_⟩
  norm_num [collideRadius]

/-- Claim C9 (amended): the collision force treats every node as a disk of
the same constant radius — `45` in the `part_000` canvas and `50` in the
second canvas variant — independent of the node's category, resolved with
`2` relaxation passes per tick in both variants. -/
theorem c9_collide_configuration :
    ∀ d e : NodeData,
      collideRadius d = 45 ∧
      collideRadius d = collideRadius e ∧
      collideIterations = 2 ∧
      collideRadiusAlt d = 50 ∧
      collideIterationsAlt = 2 :=
  fun _ _ => ⟨rfl, rfl, rfl, rfl, rfl⟩

/-- Claim C10: the link identity key `sourceId + "-" + targetId` is not
injective on ordered id pairs — the application's own root ids
(`'root-' + Date.now()`) contain `-`, and the distinct pairs
`("root-1", "x")` and `("root", "1-x")` share the key `root-1-x` — so the
`handleInitialQuery` merge drops a genuinely new link as a duplicate
(the post-merge link set is unchanged and contains no `root → 1-x` link),
and the canvas merge replaces it by the colliding existing link object. -/
theorem c10_link_key_collision :
    linkKey "root-1" "x" = linkKey "root" "1-x" ∧
    (("root-1", "x") : String × String) ≠ ("root", "1-x") ∧
    rootIdOf 1 = "root-1" ∧
    ((mergeInitial
        { nodes := [mkNode "root-1" NodeType.CORE, mkNode "root" NodeType.CORE,
                    mkNode "x" NodeType.EXAMPLE, mkNode "1-x" NodeType.EXAMPLE],
          links := [{ source := "root-1", target := "x", relation := "origin" }] }
        { nodes := [],
          links := [{ source := "root", target := "1-x", relation := "new" }] }).links =
      [{ source := "root-1", target := "x", relation := "origin" }]) ∧
    (∀ l ∈ (mergeInitial
        { nodes := [mkNode "root-1" NodeType.CORE, mkNode "root" NodeType.CORE,
                    mkNode "x" NodeType.EXAMPLE, mkNode "1-x" NodeType.EXAMPLE],
          links := [{ source := "root-1", target := "x", relation := "origin" }] }
        { nodes := [],
          links := [{ source := "root", target := "1-x", relation := "new" }] }).links,
      ¬(l.source = "root" ∧ l.target = "1-x")) ∧
    mergeLinksCanvas [{ source := "root-1", target := "x", relation := "origin" }]
        [{ source := "root", target := "1-x", relation := "new" }] =
      [{ source := "root-1", target := "x", relation := "origin" }] := by
  decide

/-- Claim C2 counterexample: the `handleInitialQuery` merge performs no
endpoint-resolution check — a fragment link `a → ghost` whose target id
resolves to no node of the post-merge node set is nevertheless present in
the post-merge link set. -/
theorem c2_dangling_link_kept :
    (({ source := "a", target := "ghost", relation := "rel" } : LinkData) ∈
      (mergeInitial { nodes := [mkNode "a" NodeType.CORE], links := [] }
        { nodes := [],
          links := [{ source := "a", target := "ghost", relation := "rel" }] }).links) ∧
    (∀ n ∈ (mergeInitial { nodes := [mkNode "a" NodeType.CORE], links := [] }
        { nodes := [],
          links := [{ source := "a", target := "ghost", relation := "rel" }] }).nodes,
      n.id ≠ "ghost") := by
  decide

/-- Claim C2 (amended): in the `expandNode` merge (`validLinks`), dangling
links are elided — provided every pre-merge link resolves in the pre-merge
node set, every link of the post-merge link set resolves to nodes of the
post-merge node set (existing or newly added in the same merge); the filter
is total, so the elision never raises.  The `handleInitialQuery` merge does
not perform this elision (see the counterexample). -/
theorem c2_expand_dangling_elision :
    ∀ prev frag : GraphState,
      (∀ l ∈ prev.links, resolves prev.nodes l = true) →
      ∀ l ∈ (mergeExpand prev frag).links,
        resolves (mergeExpand prev frag).nodes l = true :=
  fun prev frag hprev => mergeExpand_links_resolve prev frag hprev

/-- Claim C2 witness: expanding a one-node graph with a fragment holding
one resolving link and one dangling link yields a post-merge state whose
links all resolve. -/
theorem c2_witness :
    (∀ l ∈ (
      { nodes := [mkNode "a" NodeType.CORE],
        links := [{ source := "a", target := "a", relation := "self" }] } :
          GraphState).links,
      resolves (
        { nodes := [mkNode "a" NodeType.CORE],
          links := [{ source := "a", target := "a", relation := "self" }] } :
            GraphState).nodes l = true) ∧
    (∀ l ∈ (mergeExpand
        { nodes := [mkNode "a" NodeType.CORE],
          links := [{ source := "a", target := "a", relation := "self" }] }
        { nodes := [mkNode "b" NodeType.EXAMPLE],
          links := [{ source := "a", target := "b", relation := "rel" },
                    { source := "a", target := "zzz", relation := "dangling" }] }).links,
      resolves (mergeExpand
        { nodes := [mkNode "a" NodeType.CORE],
          links := [{ source := "a", target := "a", relation := "self" }] }
        { nodes := [mkNode "b" NodeType.EXAMPLE],
          links := [{ source := "a", target := "b", relation := "rel" },
                    { source := "a", target := "zzz", relation := "dangling" }] }).nodes
        l = true) :=
  ⟨by decide, c2_expand_dangling_elision
    { nodes := [mkNode "a" NodeType.CORE],
      links := [{ source := "a", target := "a", relation := "self" }] }
    { nodes := [mkNode "b" NodeType.EXAMPLE],
      links := [{ source := "a", target := "b", relation := "rel" },
                { source := "a", target := "zzz", relation := "dangling" }] }
    (by decide)⟩

/-- Claim C3: visited monotonicity.  Along any sequence of application-level
updates (node clicks, initial-query merges, expand merges) a node keeps its
id at its position and `visited = true` is never reset; and the canvas merge
copies each incoming node's `visited` verbatim (so the simulated set mirrors
the application state and never resets a visited flag either). -/
theorem c3_visited_monotonicity :
    (∀ (ops : List AppOp) (s : GraphState) (j : ℕ) (h : j < s.nodes.length),
        (s.nodes.get ⟨j, h⟩).visited = true →
        ∃ h2 : j < (applyOps ops s).nodes.length,
          ((applyOps ops s).nodes.get ⟨j, h2⟩).id = (s.nodes.get ⟨j, h⟩).id ∧
          ((applyOps ops s).nodes.get ⟨j, h2⟩).visited = true) ∧
    (∀ (old inc : List NodeData) (cx cy : ℚ) (rnd : ℕ → ℚ × ℚ) (j : ℕ)
        (h : j < inc.length),
        ∃ h2 : j < (mergeNodesCanvas old inc cx cy rnd).length,
          ((mergeNodesCanvas old inc cx cy rnd).get ⟨j, h2⟩).visited =
            (inc.get ⟨j, h⟩).visited) := by
  constructor
  · intro ops s j h hv
    obtain ⟨h2, hid, hvis⟩ := applyOps_nodes_get ops s j h
    exact ⟨h2, hid, hvis hv⟩
  · intro old inc cx cy rnd j h
    have h2 : j < (mergeNodesCanvas old inc cx cy rnd).length := by
      rw [mergeNodesCanvas_length]
      exact h
    refine ⟨h2, ?_⟩
    rw [mergeNodesCanvas_get old inc cx cy rnd j h h2]
    unfold mergeOneNode
    cases hl : lookupNode old ((inc.get ⟨j, h⟩).id) with
    | none => rfl
    | some ex => rfl

/-- Claim C3 witness: a visited node with id `a` stays visited through an
expand merge followed by a click on another node. -/
theorem c3_witness :
    (((
      { nodes := [{ mkNode "a" NodeType.CORE with visited := true }],
        links := [] } : GraphState).nodes.get ⟨0, by decide⟩).visited = true) ∧
    ∃ h2 : 0 < (applyOps
        [AppOp.mergeE { nodes := [mkNode "b" NodeType.EXAMPLE],
                        links := [{ source := "a", target := "b", relation := "r" }] },
         AppOp.click "b"]
        { nodes := [{ mkNode "a" NodeType.CORE with visited := true }],
          links := [] }).nodes.length,
      ((applyOps
        [AppOp.mergeE { nodes := [mkNode "b" NodeType.EXAMPLE],
                        links := [{ source := "a", target := "b", relation := "r" }] },
         AppOp.click "b"]
        { nodes := [{ mkNode "a" NodeType.CORE with visited := true }],
          links := [] }).nodes.get ⟨0, h2⟩).id =
        ((
          { nodes := [{ mkNode "a" NodeType.CORE with visited := true }],
            links := [] } : GraphState).nodes.get ⟨0, by decide⟩).id ∧
      ((applyOps
        [AppOp.mergeE { nodes := [mkNode "b" NodeType.EXAMPLE],
                        links := [{ source := "a", target := "b", relation := "r" }] },
         AppOp.click "b"]
        { nodes := [{ mkNode "a" NodeType.CORE with visited := true }],
          links := [] }).nodes.get ⟨0, h2⟩).visited = true :=
  ⟨by decide, c3_visited_monotonicity.1
    [AppOp.mergeE { nodes := [mkNode "b" NodeType.EXAMPLE],
                    links := [{ source := "a", target := "b", relation := "r" }] },
     AppOp.click "b"]
    { nodes := [{ mkNode "a" NodeType.CORE with visited := true }], links := [] }
    0 (by decide) (by decide)⟩

/-- Claim C4 counterexample: a fragment containing the same node id twice
defeats the per-merge dedup (which only checks ids against the pre-merge
state), so after merging it twice the graph still holds duplicate ids —
even though the second merge adds nothing and the counts agree. -/
theorem c4_internal_duplicates_survive :
    ¬ ((mergeInitial (mergeInitial { nodes := [], links := [] }
          { nodes := [mkNode "a" NodeType.EXAMPLE, mkNode "a" NodeType.EXAMPLE],
            links := [] })
          { nodes := [mkNode "a" NodeType.EXAMPLE, mkNode "a" NodeType.EXAMPLE],
            links := [] }).nodes.map NodeData.id).Nodup ∧
    (mergeInitial (mergeInitial { nodes := [], links := [] }
        { nodes := [mkNode "a" NodeType.EXAMPLE, mkNode "a" NodeType.EXAMPLE],
          links := [] })
        { nodes := [mkNode "a" NodeType.EXAMPLE, mkNode "a" NodeType.EXAMPLE],
          links := [] }).nodes.length =
      (mergeInitial { nodes := [], links := [] }
        { nodes := [mkNode "a" NodeType.EXAMPLE, mkNode "a" NodeType.EXAMPLE],
          links := [] }).nodes.length := by
  decide

/-- Claim C4 (amended): merging the same fragment twice through the
`handleInitialQuery` merge is literally idempotent — the second merge is the
identity, hence node and link counts equal those after merging once — the
key ignores the relation label, and provided the pre-merge state and the
fragment each carry no internal duplicate ids / duplicate (source, target)
pairs, no duplicates exist after the second merge. -/
theorem c4_remerge_idempotent :
    ∀ s f : GraphState,
      mergeInitial (mergeInitial s f) f = mergeInitial s f ∧
      (mergeInitial (mergeInitial s f) f).nodes.length =
        (mergeInitial s f).nodes.length ∧
      (mergeInitial (mergeInitial s f) f).links.length =
        (mergeInitial s f).links.length ∧
      (∀ (l : LinkData) (r : String),
        keyOfLink { l with relation := r } = keyOfLink l) ∧
      ((s.nodes.map NodeData.id).Nodup → (f.nodes.map NodeData.id).Nodup →
       (s.links.map pairOf).Nodup → (f.links.map pairOf).Nodup →
       ((mergeInitial (mergeInitial s f) f).nodes.map NodeData.id).Nodup ∧
       ((mergeInitial (mergeInitial s f) f).links.map pairOf).Nodup) := by
  intro s f
  have hidem := mergeInitial_idem s f
  refine ⟨hidem, by rw [hidem], by rw [hidem], fun l r => rfl, ?_⟩
  intro h1 h2 h3 h4
  rw [hidem]
  exact ⟨nodup_ids_mergeInitial s f h1 h2, nodup_pairs_mergeInitial s f h3 h4⟩

/-- Claim C4 witness: re-merging a duplicate-free fragment over a
duplicate-free state leaves the node ids and endpoint pairs duplicate-free
after the second merge. -/
theorem c4_witness :
    (((
      { nodes := [mkNode "a" NodeType.CORE], links := [] } :
        GraphState).nodes.map NodeData.id).Nodup) ∧
    (((
      { nodes := [mkNode "a" NodeType.CORE, mkNode "b" NodeType.EXAMPLE],
        links := [{ source := "a", target := "b", relation := "r" }] } :
          GraphState).nodes.map NodeData.id).Nodup) ∧
    ((mergeInitial (mergeInitial
        { nodes := [mkNode "a" NodeType.CORE], links := [] }
        { nodes := [mkNode "a" NodeType.CORE, mkNode "b" NodeType.EXAMPLE],
          links := [{ source := "a", target := "b", relation := "r" }] })
        { nodes := [mkNode "a" NodeType.CORE, mkNode "b" NodeType.EXAMPLE],
          links := [{ source := "a", target := "b", relation := "r" }] }).nodes.map
        NodeData.id).Nodup ∧
    ((mergeInitial (mergeInitial
        { nodes := [mkNode "a" NodeType.CORE], links := [] }
        { nodes := [mkNode "a" NodeType.CORE, mkNode "b" NodeType.EXAMPLE],
          links := [{ source := "a", target := "b", relation := "r" }] })
        { nodes := [mkNode "a" NodeType.CORE, mkNode "b" NodeType.EXAMPLE],
          links := [{ source := "a", target := "b", relation := "r" }] }).links.map
        pairOf).Nodup :=
  ⟨by decide, by decide,
   (c4_remerge_idempotent
      { nodes := [mkNode "a" NodeType.CORE], links := [] }
      { nodes := [mkNode "a" NodeType.CORE, mkNode "b" NodeType.EXAMPLE],
        links := [{ source := "a", target := "b", relation := "r" }] }).2.2.2.2
    (by decide) (by decide) (by decide) (by decide)⟩

/-- Claim C5: node filtering semantics.  With no active category filter and
`unvisitedOnly = false` every node is fully visible (`opacity 1`) and
interactive (`pointer-events: all`); otherwise a node matches iff
(`activeCategories` empty OR its category is selected) AND
(`unvisitedOnly = false` OR it is unvisited); matching nodes render at
opacity `1` with `pointer-events: all`, non-matching nodes are dimmed to
`0.1 < 1` with `pointer-events: none` (clicks do not register). -/
theorem c5_node_filter_semantics :
    ∀ (cats : List NodeType) (fu : Bool) (d : NodeData),
      (cats = [] ∧ fu = false →
        nodeOpacity cats fu d = 1 ∧ nodePointerEvents cats fu d = "all") ∧
      nodeActive cats fu d =
        ((cats.isEmpty || cats.contains d.type) && (!fu || !d.visited)) ∧
      (¬(cats = [] ∧ fu = false) →
        (nodeActive cats fu d = true →
          nodeOpacity cats fu d = 1 ∧ nodePointerEvents cats fu d = "all") ∧
        (nodeActive cats fu d = false →
          nodeOpacity cats fu d = 1 / 10 ∧
            nodePointerEvents cats fu d = "none")) ∧
      (1 : ℚ) / 10 < 1 := by
  intro cats fu d
  refine ⟨?_, rfl, ?_, by norm_num⟩
  · rintro ⟨hc, hf⟩
    subst hc
    subst hf
    exact ⟨rfl, rfl⟩
  · intro hnb
    have hf : isFiltering cats fu = true := by
      unfold isFiltering
      cases fu with
      | true => simp
      | false =>
          have hne : cats ≠ [] := fun hc => hnb ⟨hc, rfl⟩
          simp [hne]
    constructor
    · intro hact
      constructor
      · simp [nodeOpacity, hf, hact]
      · simp [nodePointerEvents, hf, hact]
    · intro hact
      constructor
      · simp [nodeOpacity, hf, hact]
      · simp [nodePointerEvents, hf, hact]

/-- Claim C5 witness: with `activeCategories = {CORE}` and
`unvisitedOnly = false`, an EXAMPLE node does not match and renders dimmed
and non-interactive. -/
theorem c5_witness :
    ¬(([NodeType.CORE] : List NodeType) = [] ∧ false = false) ∧
    nodeActive [NodeType.CORE] false (mkNode "b" NodeType.EXAMPLE) = false ∧
    nodeOpacity [NodeType.CORE] false (mkNode "b" NodeType.EXAMPLE) = 1 / 10 ∧
    nodePointerEvents [NodeType.CORE] false (mkNode "b" NodeType.EXAMPLE) =
      "none" :=
  ⟨by simp, by decide,
   ((c5_node_filter_semantics [NodeType.CORE] false
      (mkNode "b" NodeType.EXAMPLE)).2.2.1 (by simp)).2 (by decide)⟩

/-- Claim C6 counterexample: the link-opacity resolver yields only two
distinct values, not three pairwise-distinct tiers — the no-filtering tier
and the both-endpoints-match-under-filtering tier render at the same
opacity `0.6` (here: category filter `{CORE}` with two matching CORE
endpoints versus filters cleared). -/
theorem c6_two_tiers_only :
    linkOpacity [NodeType.CORE] false (mkNode "a" NodeType.CORE)
        (mkNode "b" NodeType.CORE) =
      linkOpacity [] false (mkNode "a" NodeType.CORE)
        (mkNode "b" NodeType.CORE) ∧
    isFiltering [NodeType.CORE] false = true ∧
    isFiltering [] false = false := by
  refine ⟨?_, rfl, rfl⟩
  simp [linkOpacity, isFiltering, nodeActive, mkNode]

/-- Claim C6 (amended): a link's visibility derives from both endpoints —
under active filtering a link with a non-matching endpoint renders at
opacity `0.1`, much lower than the `0.6` of a link whose endpoints both
match; with no filtering active the opacity is the same `0.6` as the
both-endpoints-match case, so there are two distinct opacity values, not
three. -/
theorem c6_link_opacity_semantics :
    ∀ (cats : List NodeType) (fu : Bool) (s t : NodeData),
      (isFiltering cats fu = false → linkOpacity cats fu s t = 6 / 10) ∧
      (isFiltering cats fu = true →
        nodeActive cats fu s = true → nodeActive cats fu t = true →
        linkOpacity cats fu s t = 6 / 10) ∧
      (isFiltering cats fu = true →
        (nodeActive cats fu s = false ∨ nodeActive cats fu t = false) →
        linkOpacity cats fu s t = 1 / 10) ∧
      (1 : ℚ) / 10 < 6 / 10 := by
  intro cats fu s t
  refine ⟨?_, ?_, ?_, by norm_num⟩
  · intro hf
    simp [linkOpacity, hf]
  · intro hf hs ht
    simp [linkOpacity, hf, hs, ht]
  · intro hf hd
    rcases hd with hd | hd
    · simp [linkOpacity, hf, hd]
    · simp [linkOpacity, hf, hd]

/-- Claim C6 witness: with `activeCategories = {CORE}`, a link from a
matching CORE node to a non-matching EXAMPLE node renders at the low `0.1`
tier. -/
theorem c6_witness :
    isFiltering [NodeType.CORE] false = true ∧
    nodeActive [NodeType.CORE] false (mkNode "b" NodeType.EXAMPLE) = false ∧
    linkOpacity [NodeType.CORE] false (mkNode "a" NodeType.CORE)
      (mkNode "b" NodeType.EXAMPLE) = 1 / 10 :=
  ⟨rfl, by decide,
   (c6_link_opacity_semantics [NodeType.CORE] false (mkNode "a" NodeType.CORE)
      (mkNode "b" NodeType.EXAMPLE)).2.2.1 rfl (Or.inr (by decide))⟩

/-- Claim C8: drag semantics and pin override.  `dragstarted` (with no other
active gesture) pins the node at its current position and raises the alpha
target to `0.3 > 0`; `dragged` moves the pin to the pointer; `dragended`
clears the pin and restores the alpha target to `0`; and a node pinned at
`(px, py)` stays exactly at `(px, py)` under any number `≥ 1` of solver
ticks, whatever the forces contribute. -/
theorem c8_drag_pin_semantics :
    (∀ (sim : SimState) (d : NodeData),
        dragstarted false sim d =
          ({ sim with alphaTarget := 3 / 10 },
           { d with fx := some d.x, fy := some d.y }) ∧
        0 < (dragstarted false sim d).1.alphaTarget) ∧
    (∀ (px py : ℚ) (d : NodeData),
        dragged px py d = { d with fx := some px, fy := some py }) ∧
    (∀ (sim : SimState) (d : NodeData),
        dragended false sim d =
          ({ sim with alphaTarget := 0 },
           { d with fx := none, fy := none })) ∧
    (∀ (f : NodeData → ℚ × ℚ) (d : NodeData) (px py : ℚ) (n : ℕ),
        d.fx = some px → d.fy = some py → 1 ≤ n →
        (tickIter f n d).x = px ∧ (tickIter f n d).y = py) := by
  refine ⟨?_, ?_, ?_, ?_⟩
  · intro sim d
    refine ⟨rfl, ?_⟩
    norm_num [dragstarted]
  · intro px py d
    rfl
  · intro sim d
    rfl
  · intro f d px py n hx hy hn
    exact (tickIter_pinned f px py n d hx hy).2.2 hn

/-- Claim C8 witness: a node pinned at `(3, 4)` is still exactly at `(3, 4)`
after `5` ticks under a nonzero constant force contribution. -/
theorem c8_witness :
    ({ mkNode "p" NodeType.CORE with
        x := 3, y := 4, fx := some 3, fy := some 4 } : NodeData).fx = some 3 ∧
    ({ mkNode "p" NodeType.CORE with
        x := 3, y := 4, fx := some 3, fy := some 4 } : NodeData).fy = some 4 ∧
    (1 : ℕ) ≤ 5 ∧
    ((tickIter (fun _ => (1, 1)) 5
        { mkNode "p" NodeType.CORE with
          x := 3, y := 4, fx := some 3, fy := some 4 }).x = 3 ∧
     (tickIter (fun _ => (1, 1)) 5
        { mkNode "p" NodeType.CORE with
          x := 3, y := 4, fx := some 3, fy := some 4 }).y = 4) :=
  ⟨rfl, rfl, by omega,
   c8_drag_pin_semantics.2.2.2 (fun _ => (1, 1))
     { mkNode "p" NodeType.CORE with
       x := 3, y := 4, fx := some 3, fy := some 4 } 3 4 5 rfl rfl (by omega)⟩
